import Mathlib

/-
Verification of the Verso e-commerce business-logic core.

Shallow embedding of the pricing engine, coupon validator, cart
aggregate, checkout conversion, order status timestamps and the
role/permission model, translated from the Django source
(src/products/models.py, src/orders/models.py, src/orders/views.py,
src/accounts/models.py).  Monetary Decimal values are modelled as ℚ,
integers as ℤ, datetimes as an abstract ℤ time line.
-/

namespace Verso

/-! ## Products (src/products/models.py) -/

/-- `Product`: the pricing-relevant fields of `products.models.Product`.
`base_price ≥ 0`, `discount_percentage ∈ [0,100]`, `discount_amount ≥ 0`
are enforced by field validators and are not baked into the type. -/
structure Product where
  base_price : ℚ
  discount_percentage : ℚ
  discount_amount : ℚ
  total_stock : ℤ
  sales_count : ℤ
deriving DecidableEq

/-- `Product.current_price` (src/products/models.py lines 156-163):
percentage discount first, else fixed amount clamped at 0, else base. -/
def Product.current_price (p : Product) : ℚ :=
  if p.discount_percentage > 0 then
    p.base_price * (1 - p.discount_percentage / 100)
  else if p.discount_amount > 0 then
    max (p.base_price - p.discount_amount) 0
  else
    p.base_price

/-- `ProductVariant`: the fields used by pricing and checkout
(src/products/models.py lines 246-293).  `product` is the owning
product's pricing data. -/
structure ProductVariant where
  product : Product
  stock : ℤ
  additional_price : ℚ
deriving DecidableEq

/-- `ProductVariant.price`: product's current price plus the variant delta. -/
def ProductVariant.price (v : ProductVariant) : ℚ :=
  v.product.current_price + v.additional_price

/-! ## Cart (src/orders/models.py lines 19-120) -/

/-- `CartItem`: product, optional variant, quantity (an IntegerField). -/
structure CartItem where
  product : Product
  variant : Option ProductVariant
  quantity : ℤ
deriving DecidableEq

/-- `CartItem.unit_price`: variant price if a variant is attached, else the
product's current price. -/
def CartItem.unit_price (i : CartItem) : ℚ :=
  match i.variant with
  | some v => v.price
  | none => i.product.current_price

/-- `CartItem.total_price = unit_price * quantity`. -/
def CartItem.total_price (i : CartItem) : ℚ :=
  i.unit_price * (i.quantity : ℚ)

/-- `Cart`: its list of items (the user/session owner plays no role in the
claims verified here). -/
structure Cart where
  items : List CartItem
deriving DecidableEq

/-- `Cart.total_items`: sum of item quantities. -/
def Cart.total_items (c : Cart) : ℤ :=
  (c.items.map CartItem.quantity).sum

/-- `Cart.subtotal`: sum of item total prices. -/
def Cart.subtotal (c : Cart) : ℚ :=
  (c.items.map CartItem.total_price).sum

/-- `Cart.tax`: `subtotal * Decimal('0.1')`. -/
def Cart.tax (c : Cart) : ℚ :=
  c.subtotal * (1 / 10)

/-- `Cart.shipping`: free at subtotal ≥ 50, else flat 5. -/
def Cart.shipping (c : Cart) : ℚ :=
  if c.subtotal ≥ 50 then 0 else 5

/-- `Cart.total = subtotal + tax + shipping` (no discount term on `Cart`). -/
def Cart.total (c : Cart) : ℚ :=
  c.subtotal + c.tax + c.shipping

/-! ## Coupons (src/orders/models.py lines 329-385) -/

/-- `Coupon.discount_type` choices. -/
inductive DiscountType
  | percentage
  | fixed
deriving DecidableEq

/-- `Coupon`: the fields consulted by `is_valid` and `calculate_discount`.
`usage_limit` is a nullable IntegerField, so `Option ℤ`; datetimes are ℤ. -/
structure Coupon where
  discount_type : DiscountType
  discount_value : ℚ
  minimum_purchase : ℚ
  usage_limit : Option ℤ
  usage_count : ℤ
  valid_from : ℤ
  valid_to : ℤ
  is_active : Bool
deriving DecidableEq

/-- `Coupon.is_valid` (src/orders/models.py lines 366-375).  The source
guard is `if self.usage_limit and self.usage_count >= self.usage_limit`:
by Python truthiness it fires only when `usage_limit` is non-null AND
non-zero, so `usage_limit = 0` behaves like null. -/
def Coupon.is_valid (c : Coupon) (now : ℤ) : Bool :=
  if c.is_active = false then false
  else if c.valid_from > now ∨ c.valid_to < now then false
  else
    match c.usage_limit with
    | some l => if l ≠ 0 ∧ c.usage_count ≥ l then false else true
    | none => true

/-- `Coupon.calculate_discount` (src/orders/models.py lines 377-385). -/
def Coupon.calculate_discount (c : Coupon) (subtotal : ℚ) : ℚ :=
  if subtotal < c.minimum_purchase then 0
  else
    match c.discount_type with
    | .percentage => subtotal * (c.discount_value / 100)
    | .fixed => min c.discount_value subtotal

/-- Scenario D's coupon: fixed discount_value 1000, no minimum purchase. -/
def couponD : Coupon :=
  { discount_type := .fixed, discount_value := 1000, minimum_purchase := 0
    usage_limit := none, usage_count := 0
    valid_from := 0, valid_to := 100, is_active := true }

/-- A coupon whose `usage_limit` is set to the concrete value 0. -/
def couponZeroLimit : Coupon :=
  { discount_type := .fixed, discount_value := 5, minimum_purchase := 0
    usage_limit := some 0, usage_count := 0
    valid_from := 0, valid_to := 100, is_active := true }

/-- A percentage coupon with discount_value 200 (> 100 percent). -/
def couponPct200 : Coupon :=
  { discount_type := .percentage, discount_value := 200, minimum_purchase := 0
    usage_limit := none, usage_count := 0
    valid_from := 0, valid_to := 100, is_active := true }

/-- Scenario A's product: base_price 100, discount_percentage 20. -/
def prodA : Product :=
  { base_price := 100, discount_percentage := 20, discount_amount := 0
    total_stock := 10, sales_count := 0 }

/-- Scenario B's product: price 80, no discounts. -/
def prod80 : Product :=
  { base_price := 80, discount_percentage := 0, discount_amount := 0
    total_stock := 10, sales_count := 0 }

/-- Scenario B's cart: one item, product price 80, quantity 2. -/
def cartB : Cart :=
  { items := [{ product := prod80, variant := none, quantity := 2 }] }

/-! ## Users and roles (src/accounts/models.py) -/

/-- `User.role` choices. -/
inductive Role
  | admin
  | manager
  | employee
  | customer
deriving DecidableEq

/-- `User`: the fields consulted by the permission methods and `save`. -/
structure User where
  id : ℕ
  role : Role
  is_superuser : Bool
  is_staff : Bool
deriving DecidableEq

/-- `User.is_staff_member`: role in [admin, manager, employee]. -/
def User.is_staff_member (u : User) : Bool :=
  u.role = Role.admin ∨ u.role = Role.manager ∨ u.role = Role.employee

/-- `User.is_admin`: role equals admin. -/
def User.is_admin (u : User) : Bool :=
  u.role = Role.admin

/-- The `role_hierarchy` dict in `can_delete_user`
(src/accounts/models.py line 140): customer 0, employee 1, manager 2,
admin 3 (the dict covers every role, so the `.get` default 0 is unused). -/
def role_hierarchy : Role → ℕ
  | .customer => 0
  | .employee => 1
  | .manager => 2
  | .admin => 3

/-- `User.can_delete_user` (src/accounts/models.py lines 130-145). -/
def User.can_delete_user (self target : User) : Bool :=
  if self.is_staff_member = false then false
  else if target.is_admin = true ∧ self.is_superuser = false then false
  else if role_hierarchy target.role ≥ role_hierarchy self.role then false
  else true

/-- `User.can_edit_user` (src/accounts/models.py lines 147-157): the
staff-membership guard runs BEFORE the self-edit check. -/
def User.can_edit_user (self target : User) : Bool :=
  if self.is_staff_member = false then false
  else if self.id = target.id then true
  else self.can_delete_user target

/-- `User.save` (src/accounts/models.py lines 159-170): recomputes
`is_staff` from the role, and sets `is_superuser := true` when the role is
admin — it never sets `is_superuser` back to false. -/
def User.save (u : User) : User :=
  let u1 :=
    if u.role = Role.admin ∨ u.role = Role.manager ∨ u.role = Role.employee
    then { u with is_staff := true }
    else { u with is_staff := false }
  if u1.role = Role.admin then { u1 with is_superuser := true } else u1

/-- The `permission_matrix` dict in `has_perm`
(src/accounts/models.py lines 103-123); admin has no entry. -/
def permission_matrix : Role → Option (List String)
  | .manager => some ["products.add_product", "products.change_product",
      "products.view_product", "orders.view_order", "orders.change_order",
      "accounts.view_user", "accounts.add_user"]
  | .employee => some ["products.view_product", "orders.view_order",
      "orders.change_order", "accounts.view_user"]
  | .customer => some ["orders.add_order", "orders.view_order"]
  | .admin => none

/-- `User.has_perm` (src/accounts/models.py lines 97-128): superuser or
admin bypasses the matrix; otherwise membership in the role's allow-list.
The `super().has_perm` fallback is only reached when the role has no
matrix entry, i.e. for admin, which the first branch already caught; the
Django default grants nothing here, modelled as false. -/
def User.has_perm (u : User) (perm : String) : Bool :=
  if u.is_superuser = true ∨ u.is_admin = true then true
  else
    match permission_matrix u.role with
    | some perms => perm ∈ perms
    | none => false

/-- Set the role then call `User.save`, once per list element: a sequence
of role edits each persisted through `save`. -/
def User.applyRoleSaves (u : User) (roles : List Role) : User :=
  roles.foldl (fun v r => User.save { v with role := r }) u

/-! ## Orders (src/orders/models.py lines 123-253) -/

/-- `Order.status` choices. -/
inductive OrderStatus
  | pending
  | processing
  | paid
  | shipped
  | delivered
  | cancelled
  | refunded
deriving DecidableEq

/-- `Order`: status plus the four status timestamps (nullable datetimes)
touched by `Order.save`. -/
structure Order where
  status : OrderStatus
  paid_at : Option ℤ
  shipped_at : Option ℤ
  delivered_at : Option ℤ
  cancelled_at : Option ℤ
deriving DecidableEq

/-- `Order.save` (src/orders/models.py lines 219-233): the elif chain that
stamps the matching timestamp with the current time `now` when it is still
null (a datetime is always truthy in Python, so `not self.paid_at` is
exactly the null test).  Order-number generation is independent of the
claims here and omitted. -/
def Order.save (o : Order) (now : ℤ) : Order :=
  if o.status = OrderStatus.paid ∧ o.paid_at = none then
    { o with paid_at := some now }
  else if o.status = OrderStatus.shipped ∧ o.shipped_at = none then
    { o with shipped_at := some now }
  else if o.status = OrderStatus.delivered ∧ o.delivered_at = none then
    { o with delivered_at := some now }
  else if o.status = OrderStatus.cancelled ∧ o.cancelled_at = none then
    { o with cancelled_at := some now }
  else o

/-- Set the status then call `Order.save` at the given time, once per list
element: an arbitrary sequence of later status edits each persisted. -/
def Order.applyUpdates (o : Order) (l : List (OrderStatus × ℤ)) : Order :=
  l.foldl (fun v su => Order.save { v with status := su.1 } su.2) o

/-! ## Checkout (src/orders/views.py lines 152-206)

`CheckoutView.post` projected onto one product variant: the fields the
view mutates for a cart whose items all reference that variant.  The view
creates the order unconditionally when the cart is non-empty, then for
each cart item decrements `variant.stock` and `product.total_stock` by the
item quantity and increments `product.sales_count`; it performs NO stock
check anywhere. -/

/-- State touched by a checkout against a single variant:
`cart_quantities` are the quantities of the cart's items (all on this
variant), the stock/sales counters are Python ints (ℤ, free to go
negative), and `orders_created` counts successfully created orders. -/
structure CheckoutState where
  cart_quantities : List ℤ
  variant_stock : ℤ
  product_total_stock : ℤ
  product_sales_count : ℤ
  orders_created : ℕ
deriving DecidableEq

/-- `CheckoutView.post`: redirect without an order when the cart is empty
(`total_items == 0`); otherwise create the order, decrement the stocks by
each item's quantity, increment sales, and clear the cart — with no
comparison of stock against quantity. -/
def checkoutPost (s : CheckoutState) : CheckoutState :=
  if s.cart_quantities.sum = 0 then s
  else
    { cart_quantities := []
      variant_stock := s.variant_stock - s.cart_quantities.sum
      product_total_stock := s.product_total_stock - s.cart_quantities.sum
      product_sales_count := s.product_sales_count + s.cart_quantities.sum
      orders_created := s.orders_created + 1 }

/-- Put a fresh single item of the given quantity in the cart (the state
after `AddToCartView` on an empty cart). -/
def refillCart (s : CheckoutState) (q : ℤ) : CheckoutState :=
  { s with cart_quantities := [q] }

/-- Scenario E's starting state: one cart item of quantity 1 on a variant
with stock exactly 1. -/
def checkoutScenarioE : CheckoutState :=
  { cart_quantities := [1], variant_stock := 1, product_total_stock := 1
    product_sales_count := 0, orders_created := 0 }

/-- An employee carrying `is_superuser = true`. -/
def superEmployee : User :=
  { id := 1, role := Role.employee, is_superuser := true, is_staff := true }

/-- A plain (non-superuser) employee. -/
def plainEmployee : User :=
  { id := 2, role := Role.employee, is_superuser := false, is_staff := true }

/-- An admin-role target user. -/
def adminTarget : User :=
  { id := 3, role := Role.admin, is_superuser := true, is_staff := true }

/-- A customer-role user. -/
def customerSelf : User :=
  { id := 4, role := Role.customer, is_superuser := false, is_staff := false }

/-- A manager used to exercise staff self-edit. -/
def managerSelf : User :=
  { id := 5, role := Role.manager, is_superuser := false, is_staff := true }

end Verso

namespace Verso

/-- C1: `current_price` returns `base_price * (1 - discount_percentage/100)`
when `discount_percentage > 0` (regardless of `discount_amount`), else
`max (base_price - discount_amount) 0` when `discount_amount > 0`, else
`base_price`; and a product with base_price 100, discount_percentage 20 has
current_price 80. -/
theorem current_price_cases (p : Product) :
    (0 < p.discount_percentage →
      p.current_price = p.base_price * (1 - p.discount_percentage / 100)) ∧
    (¬ 0 < p.discount_percentage → 0 < p.discount_amount →
      p.current_price = max (p.base_price - p.discount_amount) 0) ∧
    (¬ 0 < p.discount_percentage → ¬ 0 < p.discount_amount →
      p.current_price = p.base_price) ∧
    (p.base_price = 100 → p.discount_percentage = 20 →
      p.current_price = 80) := by
  refine ⟨fun h1 => ?_, fun h1 h2 => ?_, fun h1 h2 => ?_, fun hb hd => ?_⟩
  · simp [Product.current_price, h1]
  · simp [Product.current_price, h1, h2]
  · simp [Product.current_price, h1, h2]
  · simp [Product.current_price, hb, hd]
    norm_num

/-- Witness for C1: Scenario A evaluated on the concrete product. -/
theorem current_price_cases_witness : prodA.current_price = 80 :=
  (current_price_cases prodA).2.2.2 rfl rfl

/-- C7: cart tax is 10% of subtotal, shipping is 0 at subtotal ≥ 50 and 5
below, total = subtotal + tax + shipping; Scenario B (one item at unit
price 80, quantity 2) has subtotal 160, tax 16, shipping 0, total 176. -/
theorem cart_totals_spec (c : Cart) :
    c.tax = c.subtotal * (1 / 10) ∧
    (50 ≤ c.subtotal → c.shipping = 0) ∧
    (c.subtotal < 50 → c.shipping = 5) ∧
    c.total = c.subtotal + c.tax + c.shipping ∧
    (cartB.subtotal = 160 ∧ cartB.tax = 16 ∧ cartB.shipping = 0 ∧
      cartB.total = 176) := by
  have hsub : cartB.subtotal = 160 := by
    simp [cartB, Cart.subtotal, CartItem.total_price, CartItem.unit_price,
      prod80, Product.current_price]
    norm_num
  refine ⟨rfl, fun h => ?_, fun h => ?_, rfl, hsub, ?_, ?_, ?_⟩
  · simp [Cart.shipping, h]
  · simp [Cart.shipping, not_le.mpr h]
  · rw [Cart.tax, hsub]; norm_num
  · rw [Cart.shipping, hsub]; norm_num
  · rw [Cart.total, Cart.tax, Cart.shipping, hsub]; norm_num

/-- Witness for C7: the conditional conjuncts discharged on Scenario B's
concrete cart. -/
theorem cart_totals_spec_witness :
    cartB.shipping = 0 ∧ cartB.total = 176 :=
  ⟨(cart_totals_spec cartB).2.1 (by
      rw [(cart_totals_spec cartB).2.2.2.2.1]; norm_num),
    (cart_totals_spec cartB).2.2.2.2.2.2.2⟩

/-- C3: `calculate_discount` returns 0 below the minimum purchase, the
percentage formula for percentage coupons, the subtotal-capped minimum for
fixed coupons (so a fixed discount never exceeds a nonnegative subtotal);
Scenario D: fixed value 1000 on subtotal 50 yields 50. -/
theorem calculate_discount_spec (c : Coupon) (subtotal : ℚ) :
    (subtotal < c.minimum_purchase → c.calculate_discount subtotal = 0) ∧
    (c.minimum_purchase ≤ subtotal → c.discount_type = .percentage →
      c.calculate_discount subtotal = subtotal * (c.discount_value / 100)) ∧
    (c.minimum_purchase ≤ subtotal → c.discount_type = .fixed →
      c.calculate_discount subtotal = min c.discount_value subtotal) ∧
    (c.discount_type = .fixed → 0 ≤ subtotal →
      c.calculate_discount subtotal ≤ subtotal) ∧
    (c.discount_type = .fixed → c.discount_value = 1000 →
      c.minimum_purchase ≤ 50 → c.calculate_discount 50 = 50) := by
  refine ⟨fun h => ?_, fun h ht => ?_, fun h ht => ?_,
    fun ht h0 => ?_, fun ht hv hm => ?_⟩
  · simp [Coupon.calculate_discount, h]
  · simp [Coupon.calculate_discount, not_lt.mpr h, ht]
  · simp [Coupon.calculate_discount, not_lt.mpr h, ht]
  · unfold Coupon.calculate_discount
    split
    · exact h0
    · rw [ht]
      exact min_le_right _ _
  · rw [Coupon.calculate_discount, if_neg (not_lt.mpr hm), ht, hv]
    norm_num

/-- Witness for C3: Scenario D evaluated on the concrete fixed coupon. -/
theorem calculate_discount_spec_witness : couponD.calculate_discount 50 = 50 :=
  (calculate_discount_spec couponD 50).2.2.2.2 rfl rfl (by norm_num [couponD])

/-- Counterexample for C4: a coupon that is active, inside its validity
window, with `usage_limit` set to 0 and `usage_count ≥ usage_limit`, yet
`is_valid` returns true — because the source's truthiness guard treats
`usage_limit = 0` like null. -/
theorem is_valid_zero_limit_cex :
    couponZeroLimit.is_active = true ∧
    couponZeroLimit.valid_from ≤ 5 ∧ (5 : ℤ) ≤ couponZeroLimit.valid_to ∧
    couponZeroLimit.usage_limit = some 0 ∧
    couponZeroLimit.usage_count ≥ 0 ∧
    couponZeroLimit.is_valid 5 = true := by
  refine ⟨rfl, by norm_num [couponZeroLimit], by norm_num [couponZeroLimit],
    rfl, by norm_num [couponZeroLimit], ?_⟩
  simp [couponZeroLimit, Coupon.is_valid]

/-- C4 (amended): `is_valid` is false when inactive, false outside the
closed window [valid_from, valid_to], false when `usage_limit` is set and
NON-ZERO with `usage_count ≥ usage_limit`; when none of these holds (a
zero `usage_limit` counting as unset) it returns true. -/
theorem is_valid_spec (c : Coupon) (now : ℤ) :
    (c.is_active = false → c.is_valid now = false) ∧
    (c.valid_from > now ∨ c.valid_to < now → c.is_valid now = false) ∧
    (∀ l, c.usage_limit = some l → l ≠ 0 → c.usage_count ≥ l →
      c.is_valid now = false) ∧
    (c.is_active = true → c.valid_from ≤ now → now ≤ c.valid_to →
      (∀ l, c.usage_limit = some l → l = 0 ∨ c.usage_count < l) →
      c.is_valid now = true) := by
  refine ⟨fun h => ?_, fun h => ?_, fun l hl hne hge => ?_,
    fun ha h1 h2 hl => ?_⟩
  · simp [Coupon.is_valid, h]
  · simp [Coupon.is_valid, h]
  · unfold Coupon.is_valid
    split
    · rfl
    · split
      · rfl
      · rw [hl]
        simp [hne, hge]
  · have hA : ¬ c.is_active = false := by simp [ha]
    have hB : ¬ (c.valid_from > now ∨ c.valid_to < now) := by
      push_neg
      exact ⟨h1, h2⟩
    rw [Coupon.is_valid, if_neg hA, if_neg hB]
    cases hu : c.usage_limit with
    | none => rfl
    | some l =>
      have hcond : ¬ (l ≠ 0 ∧ c.usage_count ≥ l) := by
        rcases hl l hu with h0 | hlt
        · rintro ⟨hne, -⟩
          exact hne h0
        · rintro ⟨-, hge⟩
          omega
      simp [hcond]

/-- Witness for C4's amended theorem: a valid coupon evaluated concretely. -/
theorem is_valid_spec_witness : couponD.is_valid 5 = true :=
  (is_valid_spec couponD 5).2.2.2 rfl (by norm_num [couponD])
    (by norm_num [couponD]) (fun l hl => by simp [couponD] at hl)

/-- C10: percentage discounts are not capped by the subtotal: a concrete
percentage coupon with discount_value 200 and subtotal 100 ≥
minimum_purchase yields a discount of 200 > 100. -/
theorem percentage_discount_uncapped :
    couponPct200.discount_type = DiscountType.percentage ∧
    100 < couponPct200.discount_value ∧
    couponPct200.minimum_purchase ≤ 100 ∧
    100 < couponPct200.calculate_discount 100 := by
  refine ⟨rfl, by norm_num [couponPct200], by norm_num [couponPct200], ?_⟩
  norm_num [couponPct200, Coupon.calculate_discount]

/-- Counterexample for C5: an employee actor WITH `is_superuser = true`
still gets `can_delete_user = false` on an admin target, because the
role-rank check (admin rank 3 ≥ employee rank 1) fires after the
superuser exception. -/
theorem superuser_employee_delete_admin_cex :
    superEmployee.role = Role.employee ∧ adminTarget.role = Role.admin ∧
    superEmployee.is_superuser = true ∧
    superEmployee.can_delete_user adminTarget = false := by
  decide

/-- C5 (amended): an employee actor calling `can_delete_user` on an admin
target always gets false, regardless of the actor's `is_superuser` flag —
the strict rank rule blocks it even for superusers. -/
theorem employee_cannot_delete_admin (a t : User)
    (ha : a.role = Role.employee) (ht : t.role = Role.admin) :
    a.can_delete_user t = false := by
  unfold User.can_delete_user
  split
  · rfl
  · split
    · rfl
    · split
      · rfl
      · rename_i hrank
        rw [ha, ht] at hrank
        simp [role_hierarchy] at hrank

/-- Witness for C5's amended theorem: the superuser employee versus the
admin target. -/
theorem employee_cannot_delete_admin_witness :
    superEmployee.can_delete_user adminTarget = false :=
  employee_cannot_delete_admin superEmployee adminTarget rfl rfl

/-- Counterexample for C6: a customer actor with actor.id = target.id
(itself) gets `can_edit_user = false`, because the staff-membership guard
runs before the self-edit check. -/
theorem customer_self_edit_cex :
    customerSelf.role = Role.customer ∧
    customerSelf.can_edit_user customerSelf = false := by
  decide

/-- C6 (amended): when actor.id = target.id, `can_edit_user` returns
exactly the actor's staff-membership: true for staff roles
(admin/manager/employee), false for non-staff (customer) actors even on
themselves. -/
theorem can_edit_self_spec (a t : User) (h : a.id = t.id) :
    a.can_edit_user t = a.is_staff_member := by
  cases hb : a.is_staff_member with
  | false =>
    unfold User.can_edit_user
    rw [if_pos hb]
  | true =>
    unfold User.can_edit_user
    rw [if_neg (by simp [hb]), if_pos h]

/-- Witness for C6's amended theorem: staff self-edit allowed, customer
self-edit denied, both concrete. -/
theorem can_edit_self_spec_witness :
    managerSelf.can_edit_user managerSelf = true ∧
    customerSelf.can_edit_user customerSelf = false :=
  ⟨(can_edit_self_spec managerSelf managerSelf rfl).trans (by decide),
    (can_edit_self_spec customerSelf customerSelf rfl).trans (by decide)⟩

/-- `User.save` leaves the role unchanged. -/
theorem save_role (u : User) : (u.save).role = u.role := by
  simp only [User.save]
  split_ifs <;> rfl

/-- After `User.save`, `is_staff` is true exactly for staff roles. -/
theorem save_is_staff (u : User) :
    (u.save).is_staff = true ↔
      (u.role = Role.admin ∨ u.role = Role.manager ∨
        u.role = Role.employee) := by
  obtain ⟨i, r, su, st⟩ := u
  cases r <;> simp [User.save]

/-- `User.save` on an admin-role user sets `is_superuser`. -/
theorem save_superuser_admin (u : User) (h : u.role = Role.admin) :
    (u.save).is_superuser = true := by
  simp [User.save, h]

/-- `User.save` never clears `is_superuser`. -/
theorem save_superuser_mono (u : User) (h : u.is_superuser = true) :
    (u.save).is_superuser = true := by
  simp only [User.save]
  split_ifs <;> simp [h]

/-- `is_superuser` persists through any sequence of role edits each
persisted via `User.save`. -/
theorem applyRoleSaves_superuser (roles : List Role) (u : User)
    (h : u.is_superuser = true) :
    (u.applyRoleSaves roles).is_superuser = true := by
  induction roles generalizing u with
  | nil => exact h
  | cons r rs ih =>
    exact ih _ (save_superuser_mono { u with role := r } h)

/-- A superuser passes `has_perm` for every permission string. -/
theorem has_perm_superuser (u : User) (p : String)
    (h : u.is_superuser = true) : u.has_perm p = true := by
  simp [User.has_perm, h]

/-- C9: after `User.save`, `is_staff` holds exactly for roles
admin/manager/employee; role admin forces `is_superuser = true`; `save`
never clears `is_superuser`; hence a user once saved with role admin keeps
`is_superuser = true` through every later role change + save, and then
`has_perm` grants every permission. -/
theorem user_save_invariants (u : User) :
    ((u.save).is_staff = true ↔
      (u.role = Role.admin ∨ u.role = Role.manager ∨
        u.role = Role.employee)) ∧
    (u.role = Role.admin → (u.save).is_superuser = true) ∧
    (u.is_superuser = true → (u.save).is_superuser = true) ∧
    (u.role = Role.admin → ∀ roles : List Role,
      ((u.save).applyRoleSaves roles).is_superuser = true ∧
      ∀ p, ((u.save).applyRoleSaves roles).has_perm p = true) := by
  refine ⟨save_is_staff u, save_superuser_admin u, save_superuser_mono u,
    fun h roles => ?_⟩
  have hsu : ((u.save).applyRoleSaves roles).is_superuser = true :=
    applyRoleSaves_superuser roles u.save (save_superuser_admin u h)
  exact ⟨hsu, fun p => has_perm_superuser _ p hsu⟩

/-- `Order.save` never overwrites an already-set status timestamp. -/
theorem save_preserves_timestamps (o : Order) (t : ℤ) :
    (∀ s, o.paid_at = some s → (o.save t).paid_at = some s) ∧
    (∀ s, o.shipped_at = some s → (o.save t).shipped_at = some s) ∧
    (∀ s, o.delivered_at = some s → (o.save t).delivered_at = some s) ∧
    (∀ s, o.cancelled_at = some s → (o.save t).cancelled_at = some s) := by
  unfold Order.save
  split_ifs with h1 h2 h3 h4 <;>
    refine ⟨?_, ?_, ?_, ?_⟩ <;> intro s hs <;> simp_all

/-- A set `paid_at` persists through any sequence of status updates each
persisted via `Order.save`. -/
theorem applyUpdates_preserves_paid_at (l : List (OrderStatus × ℤ))
    (o : Order) (s : ℤ) (h : o.paid_at = some s) :
    (o.applyUpdates l).paid_at = some s := by
  induction l generalizing o with
  | nil => exact h
  | cons x xs ih =>
    exact ih _ ((save_preserves_timestamps { o with status := x.1 } x.2).1
      s h)

/-- A set `shipped_at` persists through any sequence of saves. -/
theorem applyUpdates_preserves_shipped_at (l : List (OrderStatus × ℤ))
    (o : Order) (s : ℤ) (h : o.shipped_at = some s) :
    (o.applyUpdates l).shipped_at = some s := by
  induction l generalizing o with
  | nil => exact h
  | cons x xs ih =>
    exact ih _ ((save_preserves_timestamps { o with status := x.1 }
      x.2).2.1 s h)

/-- A set `delivered_at` persists through any sequence of saves. -/
theorem applyUpdates_preserves_delivered_at (l : List (OrderStatus × ℤ))
    (o : Order) (s : ℤ) (h : o.delivered_at = some s) :
    (o.applyUpdates l).delivered_at = some s := by
  induction l generalizing o with
  | nil => exact h
  | cons x xs ih =>
    exact ih _ ((save_preserves_timestamps { o with status := x.1 }
      x.2).2.2.1 s h)

/-- A set `cancelled_at` persists through any sequence of saves. -/
theorem applyUpdates_preserves_cancelled_at (l : List (OrderStatus × ℤ))
    (o : Order) (s : ℤ) (h : o.cancelled_at = some s) :
    (o.applyUpdates l).cancelled_at = some s := by
  induction l generalizing o with
  | nil => exact h
  | cons x xs ih =>
    exact ih _ ((save_preserves_timestamps { o with status := x.1 }
      x.2).2.2.2 s h)

/-- C8: the first save with status paid (resp. shipped, delivered,
cancelled) while the matching timestamp is null stamps it with the current
time; and once any of the four timestamps is non-null, no later save —
through any sequence of status edits, re-entering the same status
included — ever changes it. -/
theorem order_status_timestamps (o : Order) (t : ℤ) :
    (o.status = OrderStatus.paid → o.paid_at = none →
      (o.save t).paid_at = some t) ∧
    (o.status = OrderStatus.shipped → o.shipped_at = none →
      (o.save t).shipped_at = some t) ∧
    (o.status = OrderStatus.delivered → o.delivered_at = none →
      (o.save t).delivered_at = some t) ∧
    (o.status = OrderStatus.cancelled → o.cancelled_at = none →
      (o.save t).cancelled_at = some t) ∧
    (∀ s l, o.paid_at = some s → (o.applyUpdates l).paid_at = some s) ∧
    (∀ s l, o.shipped_at = some s →
      (o.applyUpdates l).shipped_at = some s) ∧
    (∀ s l, o.delivered_at = some s →
      (o.applyUpdates l).delivered_at = some s) ∧
    (∀ s l, o.cancelled_at = some s →
      (o.applyUpdates l).cancelled_at = some s) := by
  refine ⟨fun hst hn => ?_, fun hst hn => ?_, fun hst hn => ?_,
    fun hst hn => ?_,
    fun s l h => applyUpdates_preserves_paid_at l o s h,
    fun s l h => applyUpdates_preserves_shipped_at l o s h,
    fun s l h => applyUpdates_preserves_delivered_at l o s h,
    fun s l h => applyUpdates_preserves_cancelled_at l o s h⟩ <;>
  simp [Order.save, hst, hn]

/-- The fresh order used to witness C8: status paid, no timestamps yet. -/
def ordPaid : Order :=
  { status := OrderStatus.paid, paid_at := none, shipped_at := none
    delivered_at := none, cancelled_at := none }

/-- Witness for C8: a fresh paid order stamped at time 7, then re-saved
as paid at time 9 — `paid_at` stays 7. -/
theorem order_status_timestamps_witness :
    (ordPaid.save 7).paid_at = some 7 ∧
    ((ordPaid.save 7).applyUpdates
      [(OrderStatus.paid, 9)]).paid_at = some 7 :=
  ⟨(order_status_timestamps ordPaid 7).1 rfl rfl,
    (order_status_timestamps (ordPaid.save 7) 0).2.2.2.2.1 7
      [(OrderStatus.paid, 9)]
      ((order_status_timestamps ordPaid 7).1 rfl rfl)⟩

/-- C2 (code evaluated at the failing input): starting from a sole cart
item of quantity 1 on a variant of stock exactly 1, the first checkout
creates an order and leaves stock 0 (as the claim says); but a second
checkout of a same-variant quantity-1 cart also creates an order — the
view raises no InsufficientStockError — and drives the variant stock to
-1. -/
theorem checkout_unchecked_stock_oversell :
    (checkoutPost checkoutScenarioE).orders_created = 1 ∧
    (checkoutPost checkoutScenarioE).variant_stock = 0 ∧
    (checkoutPost (refillCart (checkoutPost checkoutScenarioE)
      1)).orders_created = 2 ∧
    (checkoutPost (refillCart (checkoutPost checkoutScenarioE)
      1)).variant_stock = -1 := by
  decide

/-- Witness for C9: an admin-role user saved, demoted to customer and
saved again, still superuser and still granted an arbitrary permission. -/
theorem user_save_invariants_witness :
    ((adminTarget.save).applyRoleSaves [Role.customer]).is_superuser =
      true ∧
    ((adminTarget.save).applyRoleSaves
      [Role.customer]).has_perm "products.delete_product" = true :=
  (user_save_invariants adminTarget).2.2.2 rfl [Role.customer] |>.imp
    id (fun hp => hp "products.delete_product")

end Verso
